import Mathlib

/-!
A verification development for `betterls` (`src/main.rs`), a directory-listing
tool.  The filesystem is modelled as a graph of inode ids (`FSys`), so that
symbolic links may point anywhere, including at ancestors of their containing
directory.  Every fallible system call (`read_dir`, per-entry enumeration,
`metadata`, `symlink_metadata`, `modified`) is modelled by an `Option`.
The recursive directory-size computation is given a fuel parameter; its
stabilisation under a depth bound expresses termination of the Rust original.
-/

/-- Result of enumerating one directory entry: `err` models an `Err` item
yielded by the `read_dir` iterator; `ok` carries the entry's file name
(`none` when the `OsString` is not valid unicode) and the inode id the
entry's path designates. -/
inductive EntryRes where
  | err : EntryRes
  | ok (name : Option String) (id : Nat) : EntryRes
deriving DecidableEq, Repr

/-- One filesystem node.  `file` carries a byte length; `dir` carries the
result of `read_dir` on it (`none` models an unreadable directory) plus a
modification time; `symlink` carries the link-record length in bytes and the
target inode id.  Modification times are seconds since the Unix epoch,
`none` when `modified()` fails. -/
inductive NodeData where
  | file (size : Nat) (modified : Option Nat) : NodeData
  | dir (ents : Option (List EntryRes)) (modified : Option Nat) : NodeData
  | symlink (linkLen : Nat) (target : Nat) (modified : Option Nat) : NodeData
deriving DecidableEq, Repr

/-- A filesystem: a partial map from inode ids to nodes.  A path is modelled
by the id it designates; `none` means the id designates nothing (vanished
entry, dangling link target). -/
structure FSys where
  node : Nat → Option NodeData

/-- Result of a successful `stat`: directory flag, byte length, modification
time.  The byte length of a directory node is never consumed by the program
(`meta.len()` is only read on non-directories), so it is set to `0` here. -/
structure StatMeta where
  isDir : Bool
  len : Nat
  modified : Option Nat
deriving DecidableEq, Repr

/-- `fs::symlink_metadata`: stat WITHOUT following symlinks.  A symlink node
reports `isDir = false` and its own link-record length. -/
def statNoFollow (fs : FSys) (id : Nat) : Option StatMeta :=
  match fs.node id with
  | none => none
  | some (.file s m) => some ⟨false, s, m⟩
  | some (.dir _ m) => some ⟨true, 0, m⟩
  | some (.symlink l _ m) => some ⟨false, l, m⟩

/-- Kernel bound on the length of a symlink chain (`SYMLOOP_MAX`); a longer
chain makes path resolution fail with `ELOOP`. -/
def maxLinkDepth : Nat := 40

/-- Follow a chain of symlinks to a non-symlink node id; `none` models
`ELOOP` (fuel exhausted), a dangling link or a vanished node. -/
def resolve (fs : FSys) : Nat → Nat → Option Nat
  | 0, _ => none
  | fuel + 1, id =>
    match fs.node id with
    | none => none
    | some (.symlink _ tid _) => resolve fs fuel tid
    | some (.file _ _) => some id
    | some (.dir _ _) => some id

/-- `fs::metadata`: stat FOLLOWING symlinks. -/
def statFollow (fs : FSys) (id : Nat) : Option StatMeta :=
  match resolve fs maxLinkDepth id with
  | none => none
  | some rid => statNoFollow fs rid

/-- `fs::read_dir`: resolves the path through symlinks, then yields the
directory's entry list; fails when the path does not resolve, resolves to a
non-directory, or the directory is unreadable. -/
def readDir (fs : FSys) (id : Nat) : Option (List EntryRes) :=
  match resolve fs maxLinkDepth id with
  | none => none
  | some rid =>
    match fs.node rid with
    | some (.dir ents _) => ents
    | _ => none

/-- Contribution of one enumerated entry to `dir_size`'s `total`
accumulator: `Err` entries are removed by `flatten` (contribute 0); for an
`Ok` entry, `symlink_metadata` decides: failure contributes 0, a directory
contributes the recursive call `recur`, anything else its own length. -/
def entryContrib (fs : FSys) (recur : Nat → Nat) : EntryRes → Nat
  | .err => 0
  | .ok _ cid =>
    match statNoFollow fs cid with
    | none => 0
    | some m => if m.isDir then recur cid else m.len

/-- `dir_size` from `main.rs`: recursive total size of a directory.  The
`for` loop accumulating `total` is modelled as the sum of per-entry
contributions.  The extra fuel argument bounds recursion depth; `fuel = 0`
returns 0, and the stabilisation theorems below show the value is
fuel-independent once the fuel covers the directory depth. -/
def dir_size (fs : FSys) : Nat → Nat → Nat
  | 0, _ => 0
  | fuel + 1, id =>
    match readDir fs id with
    | none => 0
    | some ents => (ents.map (entryContrib fs (dir_size fs fuel))).sum

/-- `is_dir_empty` from `main.rs`:
`Ok(fs::read_dir(path)?.next().is_none())` — propagates the `read_dir`
error, otherwise reports whether the iterator yields no item at all. -/
def is_dir_empty (fs : FSys) (id : Nat) : Option Bool :=
  (readDir fs id).map List.isEmpty

/-- `KB` constant from `convert_binary_units`. -/
def KB : Nat := 1024

/-- `MB` constant from `convert_binary_units`. -/
def MB : Nat := 1024 * KB

/-- `GB` constant from `convert_binary_units`. -/
def GB : Nat := 1024 * MB

/-- Render `k < 100` as exactly two decimal digit characters. -/
def pad2 (k : Nat) : String :=
  String.mk [Nat.digitChar (k / 10), Nat.digitChar (k % 10)]

/-- Round `a / d` to the nearest integer, ties to even — the rounding used
when a binary value is printed to a fixed number of decimal places. -/
def rnd2 (a d : Nat) : Nat :=
  let q := a / d
  let r := a % d
  if 2 * r < d then q
  else if d < 2 * r then q + 1
  else if q % 2 = 0 then q else q + 1

/-- Model of Rust `format!("{:.2}", n as f64 / d as f64)` for the divisors
`KB`, `MB`, `GB`: the quotient rendered with two decimal places, rounding to
nearest, ties to even.  For `n < 2^53` this is exact: `n as f64` is exact,
dividing by a power of two only shifts the exponent, and `{:.2}` rounds the
true binary value to two decimals with ties to even. -/
def fmt2 (n d : Nat) : String :=
  let h := rnd2 (n * 100) d
  toString (h / 100) ++ "." ++ pad2 (h % 100)

/-- `convert_binary_units` from `main.rs`: the `match` guard chain
`b >= GB`, `b >= MB`, `b >= KB`, else raw bytes. -/
def convert_binary_units (size : Nat) : String :=
  if GB ≤ size then fmt2 size GB ++ "GB"
  else if MB ≤ size then fmt2 size MB ++ "MB"
  else if KB ≤ size then fmt2 size KB ++ "KB"
  else toString size ++ "B"

/-- Abbreviated month name, 1-based (`%b`). -/
def monthAbbr : Nat → String
  | 1 => "Jan" | 2 => "Feb" | 3 => "Mar" | 4 => "Apr" | 5 => "May" | 6 => "Jun"
  | 7 => "Jul" | 8 => "Aug" | 9 => "Sep" | 10 => "Oct" | 11 => "Nov" | _ => "Dec"

/-- Abbreviated weekday name, 0 = Sunday (`%a`). -/
def weekdayAbbr : Nat → String
  | 0 => "Sun" | 1 => "Mon" | 2 => "Tue" | 3 => "Wed" | 4 => "Thu" | 5 => "Fri" | _ => "Sat"

/-- Proleptic Gregorian civil date `(year, month, day)` from days since the
Unix epoch (standard days-to-civil conversion). -/
def civilFromDays (days : Nat) : Nat × Nat × Nat :=
  let z := days + 719468
  let era := z / 146097
  let doe := z % 146097
  let yoe := (doe - doe / 1460 + doe / 36524 - doe / 146096) / 365
  let doy := doe - (365 * yoe + yoe / 4 - yoe / 100)
  let mp := (5 * doy + 2) / 153
  let d := doy - (153 * mp + 2) / 5 + 1
  let m := if mp < 10 then mp + 3 else mp - 9
  (yoe + era * 400 + (if m ≤ 2 then 1 else 0), m, d)

/-- chrono `date.format("%a %e %b %y")` on a UTC timestamp (seconds since
the epoch): short weekday, space-padded day-of-month, short month, 2-digit
year — e.g. `"Mon  3 Jun 24"`.  1970-01-01 was a Thursday. -/
def formatDate (secs : Nat) : String :=
  let days := secs / 86400
  let c := civilFromDays days
  let e := if c.2.2 < 10 then " " ++ toString c.2.2 else toString c.2.2
  weekdayAbbr ((days + 4) % 7) ++ " " ++ e ++ " " ++ monthAbbr c.2.1 ++ " " ++ pad2 (c.1 % 100)

/-- The `FileType` enum. -/
inductive FileType where
  | File : FileType
  | Directory : FileType
deriving DecidableEq, Repr

/-- The `FileMetadata` record pushed into the output vector. -/
structure FileMetadata where
  name : String
  ftype : FileType
  size : String
  modified : String
deriving DecidableEq, Repr

/-- The body of the `for` loop of `fetchfiles` for one enumerated entry:
`none` when the entry is skipped (enumeration `Err`, or `fs::metadata`
fails), otherwise the `FileMetadata` record pushed for it.  `fuel` is
forwarded to `dir_size`. -/
def entryRecord (fs : FSys) (fuel : Nat) : EntryRes → Option FileMetadata
  | .err => none
  | .ok nm cid =>
    match statFollow fs cid with
    | none => none
    | some meta =>
      some
        { name := nm.getD "???"
          ftype := if meta.isDir then FileType.Directory else FileType.File
          size :=
            if meta.isDir then
              match is_dir_empty fs cid with
              | some true => "0B"
              | some false => convert_binary_units (dir_size fs fuel cid)
              | none => "0B"
            else convert_binary_units meta.len
          modified :=
            match meta.modified with
            | some t => formatDate t
            | none => "" }

/-- `fetchfiles` from `main.rs`: enumerate the directory (an unreadable
target yields the empty vector) and keep one record per successfully
processed entry, in enumeration order. -/
def fetchfiles (fs : FSys) (fuel : Nat) (id : Nat) : List FileMetadata :=
  match readDir fs id with
  | none => []
  | some content => content.filterMap (entryRecord fs fuel)

/-- Observable outcome of `main`: one of the three messages, or the rendered
records (aligned table or JSON array). -/
inductive ProgOut where
  | errorReading : ProgOut
  | pathMissing : ProgOut
  | folderEmpty : ProgOut
  | tableOut (recs : List FileMetadata) : ProgOut
  | jsonOut (recs : List FileMetadata) : ProgOut
deriving DecidableEq, Repr

/-- `main` from `main.rs`.  The path-existence check `fs::exists` is an
external collaborator, passed in as its result (`none` models the check
itself erroring).  When JSON output is requested the source calls
`fetchfiles` a second time; the model mirrors that. -/
def mainRun (fs : FSys) (fuel : Nat) (existsRes : Option Bool) (id : Nat)
    (jsonFlag : Bool) : ProgOut :=
  match existsRes with
  | none => ProgOut.errorReading
  | some false => ProgOut.pathMissing
  | some true =>
    let files := fetchfiles fs fuel id
    if files.isEmpty then ProgOut.folderEmpty
    else if jsonFlag then ProgOut.jsonOut (fetchfiles fs fuel id)
    else ProgOut.tableOut files

/-- Does `id` designate a directory node (stat without following links
reports a directory)? -/
def isDirNode (fs : FSys) (id : Nat) : Bool :=
  match fs.node id with
  | some (.dir _ _) => true
  | _ => false

/-- The spec's tier-selection rule, stated from the spec's words (GB iff
`b ≥ 1024³`, MB iff `1024² ≤ b < 1024³`, KB iff `1024 ≤ b < 1024²`, else raw
bytes), for comparison with `convert_binary_units`. -/
def unitSuffixSpec (b : Nat) : String :=
  if GB ≤ b then "GB" else if MB ≤ b then "MB" else if KB ≤ b then "KB" else "B"

/-- Example filesystem: root `0` holds a 500-byte file `1` and a
subdirectory `2` holding a 300-byte file `3`. -/
def exC1 : FSys :=
  ⟨fun id =>
    match id with
    | 0 => some (.dir (some [.ok (some "big.bin") 1, .ok (some "sub") 2]) none)
    | 1 => some (.file 500 (some 1717400000))
    | 2 => some (.dir (some [.ok (some "inner.bin") 3]) none)
    | 3 => some (.file 300 none)
    | _ => none⟩

/-- Example filesystem with a symlink cycle: root `0` holds subdirectory
`1`, which holds a symlink `2` of link-record length 7 pointing back at the
ancestor `0`, next to a 300-byte file `3`. -/
def fsC3 : FSys :=
  ⟨fun id =>
    match id with
    | 0 => some (.dir (some [.ok (some "sub") 1]) none)
    | 1 => some (.dir (some [.ok (some "up") 2, .ok (some "f.txt") 3]) none)
    | 2 => some (.symlink 7 0 none)
    | 3 => some (.file 300 none)
    | _ => none⟩

/-- Example filesystem for per-entry fallbacks: root `0` enumerates an
`Err` item, an entry `1` whose name is not valid unicode, a regular entry
`2` with no readable timestamp, and an entry whose id `9` designates
nothing (vanished: every stat on it fails). -/
def fsC5 : FSys :=
  ⟨fun id =>
    match id with
    | 0 => some (.dir (some [.err, .ok none 1, .ok (some "x.txt") 2,
        .ok (some "gone") 9]) none)
    | 1 => some (.file 5 (some 1717400000))
    | 2 => some (.file 10 none)
    | _ => none⟩

/-- Example filesystem: root `0` holds exactly one entry, the empty
directory `1`. -/
def exC6 : FSys :=
  ⟨fun id =>
    match id with
    | 0 => some (.dir (some [.ok (some "emptysub") 1]) none)
    | 1 => some (.dir (some []) none)
    | _ => none⟩

/-- Example filesystem for top-level symlink handling: root `0` holds a
symlink `1` to directory `2` (which holds a 2048-byte file `3`) and a
symlink `4` whose target id `7` designates nothing (dangling). -/
def fsC9 : FSys :=
  ⟨fun id =>
    match id with
    | 0 => some (.dir (some [.ok (some "link") 1, .ok (some "dead") 4]) none)
    | 1 => some (.symlink 9 2 none)
    | 2 => some (.dir (some [.ok (some "f.bin") 3]) (some 1717400000))
    | 3 => some (.file 2048 none)
    | 4 => some (.symlink 5 7 none)
    | _ => none⟩

/-- Example filesystem whose id `0` is a regular file (so enumerating it as
a directory fails) and whose id `1` is an unreadable directory. -/
def fsC10 : FSys :=
  ⟨fun id =>
    match id with
    | 0 => some (.file 10 none)
    | 1 => some (.dir none none)
    | _ => none⟩

/-- Depth bound for the directory hierarchy reachable from `id`, counting
only genuine directory children (symlink entries are never descended into by
`dir_size`, so they are unconstrained — a symlink may point at an
ancestor). -/
inductive DepthLE (fs : FSys) : Nat → Nat → Prop where
  | leaf (id n : Nat) : readDir fs id = none → DepthLE fs id n
  | node (id n : Nat) (ents : List EntryRes) :
      readDir fs id = some ents →
      (∀ nm cid, EntryRes.ok nm cid ∈ ents → isDirNode fs cid = true → DepthLE fs cid n) →
      DepthLE fs id (n + 1)

/-- One resolution step through a symlink node. -/
theorem resolve_symlink_step (fs : FSys) (f id l tid : Nat) (md : Option Nat)
    (h : fs.node id = some (.symlink l tid md)) :
    resolve fs (f + 1) id = resolve fs f tid := by
  simp [resolve, h]

/-- Resolution stops at a directory node. -/
theorem resolve_dir_stop (fs : FSys) (f id : Nat) (ents : Option (List EntryRes))
    (md : Option Nat) (h : fs.node id = some (.dir ents md)) :
    resolve fs (f + 1) id = some id := by
  simp [resolve, h]

/-- When `read_dir` fails, `dir_size` is 0 at every fuel. -/
theorem dir_size_readDir_none (fs : FSys) (id : Nat) (h : readDir fs id = none) :
    ∀ f, dir_size fs f id = 0 := by
  intro f
  cases f with
  | zero => rfl
  | succ f => simp [dir_size, h]

/-- If stat-without-following reports a directory, the node is a directory
node. -/
theorem statNoFollow_isDir (fs : FSys) (id : Nat) (m : StatMeta)
    (hm : statNoFollow fs id = some m) (hd : m.isDir = true) :
    isDirNode fs id = true := by
  unfold statNoFollow at hm
  unfold isDirNode
  cases hn : fs.node id with
  | none => rw [hn] at hm; exact absurd hm (by simp)
  | some nd =>
    cases nd with
    | file s md => rw [hn] at hm; cases hm; simp at hd
    | dir e md => rfl
    | symlink l t md => rw [hn] at hm; cases hm; simp at hd

/-- The per-entry contribution only depends on the recursive call on genuine
directory nodes. -/
theorem entryContrib_congr (fs : FSys) (r₁ r₂ : Nat → Nat) (e : EntryRes)
    (h : ∀ nm cid, e = EntryRes.ok nm cid → isDirNode fs cid = true → r₁ cid = r₂ cid) :
    entryContrib fs r₁ e = entryContrib fs r₂ e := by
  cases e with
  | err => rfl
  | ok nm cid =>
    simp only [entryContrib]
    cases hm : statNoFollow fs cid with
    | none => rfl
    | some m =>
      cases hd : m.isDir with
      | false => simp [hd]
      | true => simp [hd, h nm cid rfl (statNoFollow_isDir fs cid m hm hd)]

/-- Fuel-independence of `dir_size` above a depth bound: once the fuel
covers the directory depth below `id`, the result is stable — the recursion
of the Rust original terminates with that value. -/
theorem dir_size_stable (fs : FSys) (id n : Nat) (h : DepthLE fs id n) :
    ∀ f, n ≤ f → dir_size fs f id = dir_size fs n id := by
  induction h with
  | leaf id n hrd =>
    intro f _
    rw [dir_size_readDir_none fs id hrd, dir_size_readDir_none fs id hrd]
  | node id n ents hrd hch ih =>
    intro f hf
    cases f with
    | zero => omega
    | succ f =>
      simp only [dir_size, hrd]
      congr 1
      apply List.map_congr_left
      intro e he
      apply entryContrib_congr
      intro nm cid hee hdir
      subst hee
      exact ih nm cid he hdir f (by omega)

/-- The subdirectory of `exC1` has directory depth at most 1. -/
theorem exC1_depth_sub : DepthLE exC1 2 1 := by
  apply DepthLE.node 2 0 [.ok (some "inner.bin") 3] (by decide)
  intro nm cid hmem hdir
  simp only [List.mem_singleton] at hmem
  injection hmem with h1 h2
  subst h2
  exact absurd hdir (by decide)

/-- The root of `exC1` has directory depth at most 2. -/
theorem exC1_depth : DepthLE exC1 0 2 := by
  apply DepthLE.node 0 1 [.ok (some "big.bin") 1, .ok (some "sub") 2] (by decide)
  intro nm cid hmem hdir
  simp only [List.mem_cons, List.not_mem_nil, or_false] at hmem
  rcases hmem with h | h
  · injection h with h1 h2
    subst h2
    exact absurd hdir (by decide)
  · injection h with h1 h2
    subst h2
    exact exC1_depth_sub

/-- The subdirectory of `fsC3` has directory depth at most 1: its symlink
entry (which points at the root, an ancestor) is not a directory child. -/
theorem fsC3_depth_sub : DepthLE fsC3 1 1 := by
  apply DepthLE.node 1 0 [.ok (some "up") 2, .ok (some "f.txt") 3] (by decide)
  intro nm cid hmem hdir
  simp only [List.mem_cons, List.not_mem_nil, or_false] at hmem
  rcases hmem with h | h <;>
    (injection h with h1 h2; subst h2; exact absurd hdir (by decide))

/-- The root of `fsC3` has directory depth at most 2 even though a symlink
below it points back at it. -/
theorem fsC3_depth : DepthLE fsC3 0 2 := by
  apply DepthLE.node 0 1 [.ok (some "sub") 1] (by decide)
  intro nm cid hmem hdir
  simp only [List.mem_singleton] at hmem
  injection hmem with h1 h2
  subst h2
  exact fsC3_depth_sub

/-- C1: for every directory, `dir_size` returns the sum over its direct
entries of the recursive total for entries whose non-dereferenced metadata
reports a directory and the entry's own byte length otherwise (a symlink
contributes its link-record length, never its target's content); failed
enumeration or metadata reads contribute zero and traversal continues; on a
directory with one 500-byte file and a subdirectory holding a 300-byte file
the result is 800. -/
theorem c1_dir_size_aggregation :
    (∀ (fs : FSys) (fuel id : Nat) (ents : List EntryRes),
      readDir fs id = some ents →
      dir_size fs (fuel + 1) id =
        (ents.map (fun e =>
          match e with
          | EntryRes.err => 0
          | EntryRes.ok _ cid =>
            match fs.node cid with
            | none => 0
            | some (NodeData.file s _) => s
            | some (NodeData.dir _ _) => dir_size fs fuel cid
            | some (NodeData.symlink l _ _) => l)).sum)
    ∧ (∀ (fs : FSys) (fuel id : Nat), readDir fs id = none → dir_size fs fuel id = 0)
    ∧ (∀ f, 2 ≤ f → dir_size exC1 f 0 = 800) := by
  refine ⟨?_, ?_, ?_⟩
  · intro fs fuel id ents h
    simp only [dir_size, h]
    congr 1
    congr 1
    funext e
    cases e with
    | err => rfl
    | ok nm cid =>
      simp only [entryContrib, statNoFollow]
      cases hn : fs.node cid with
      | none => rfl
      | some nd =>
        cases nd with
        | file s m => rfl
        | dir e2 m => rfl
        | symlink l t m => rfl
  · intro fs fuel id h
    exact dir_size_readDir_none fs id h fuel
  · intro f hf
    rw [dir_size_stable exC1 0 2 exC1_depth f hf]
    decide

/-- C1 witness: the theorem applied to the 500-byte-file-plus-subdir
example at fuel 10. -/
theorem c1_witness : dir_size exC1 10 0 = 800 :=
  c1_dir_size_aggregation.2.2 10 (by omega)

/-- C3: `dir_size` never recurses into a symlink entry — its contribution
is its link-record length whatever the recursive-call function would do and
wherever the link points — and under a depth bound on the genuine directory
hierarchy (which constrains symlinks not at all, so a symlink may point at
an ancestor) the fuelled recursion stabilises: the Rust recursion
terminates. -/
theorem c3_symlink_safe_termination :
    (∀ (fs : FSys) (recur : Nat → Nat) (nm : Option String) (cid l tid : Nat)
      (md : Option Nat),
      fs.node cid = some (NodeData.symlink l tid md) →
      entryContrib fs recur (EntryRes.ok nm cid) = l)
    ∧ (∀ (fs : FSys) (id n : Nat), DepthLE fs id n →
        ∀ f, n ≤ f → dir_size fs f id = dir_size fs n id) := by
  constructor
  · intro fs recur nm cid l tid md h
    simp [entryContrib, statNoFollow, h]
  · intro fs id n h f hf
    exact dir_size_stable fs id n h f hf

/-- C3 witness: in `fsC3` the symlink entry `2` (which points at the root,
an ancestor of its containing directory) contributes its link length 7, and
`dir_size` is already stable at fuel 2 with total 307. -/
theorem c3_witness :
    entryContrib fsC3 (dir_size fsC3 0) (EntryRes.ok (some "up") 2) = 7
    ∧ dir_size fsC3 5 0 = dir_size fsC3 2 0
    ∧ dir_size fsC3 2 0 = 307 :=
  ⟨c3_symlink_safe_termination.1 fsC3 (dir_size fsC3 0) (some "up") 2 7 0 none rfl,
   c3_symlink_safe_termination.2 fsC3 0 2 fsC3_depth 5 (by omega),
   by decide⟩

/-- A two-decimal fraction part always renders as exactly two characters. -/
theorem pad2_length (k : Nat) : (pad2 k).length = 2 := rfl

/-- C2: for every byte count, `convert_binary_units` renders values below
1024 as the raw integer with suffix `B`, and values of at least 1024 as a
two-decimal-place magnitude followed by the tier suffix chosen exactly as
the spec states (GB iff `b ≥ 1024³`, MB iff `1024² ≤ b < 1024³`, KB iff
`1024 ≤ b < 1024²`, inclusive lower bounds); the function is total, and
`0 ↦ "0B"`, `1023 ↦ "1023B"`, `1024 ↦ "1.00KB"`, `1048576 ↦ "1.00MB"`,
`1073741824 ↦ "1.00GB"`. -/
theorem c2_convert_binary_units_tiers :
    (∀ b : Nat, b < KB → convert_binary_units b = toString b ++ "B")
    ∧ (∀ b : Nat, KB ≤ b → ∃ q : Nat,
        convert_binary_units b =
          toString (q / 100) ++ "." ++ pad2 (q % 100) ++ unitSuffixSpec b
        ∧ (pad2 (q % 100)).length = 2)
    ∧ (∀ b : Nat, unitSuffixSpec b = "GB" ↔ GB ≤ b)
    ∧ (∀ b : Nat, unitSuffixSpec b = "MB" ↔ MB ≤ b ∧ b < GB)
    ∧ (∀ b : Nat, unitSuffixSpec b = "KB" ↔ KB ≤ b ∧ b < MB)
    ∧ (∀ b : Nat, unitSuffixSpec b = "B" ↔ b < KB)
    ∧ convert_binary_units 0 = "0B"
    ∧ convert_binary_units 1023 = "1023B"
    ∧ convert_binary_units 1024 = "1.00KB"
    ∧ convert_binary_units 1048576 = "1.00MB"
    ∧ convert_binary_units 1073741824 = "1.00GB" := by
  have hk : KB = 1024 := rfl
  have hm : MB = 1048576 := rfl
  have hg : GB = 1073741824 := rfl
  refine ⟨?_, ?_, ?_, ?_, ?_, ?_, by decide, by decide, by decide, by decide, by decide⟩
  · intro b hb
    have h1 : ¬ GB ≤ b := by omega
    have h2 : ¬ MB ≤ b := by omega
    have h3 : ¬ KB ≤ b := by omega
    simp [convert_binary_units, h1, h2, h3]
  · intro b hb
    by_cases h1 : GB ≤ b
    · refine ⟨rnd2 (b * 100) GB, ?_, pad2_length _⟩
      simp [convert_binary_units, unitSuffixSpec, h1, fmt2]
    · by_cases h2 : MB ≤ b
      · refine ⟨rnd2 (b * 100) MB, ?_, pad2_length _⟩
        simp [convert_binary_units, unitSuffixSpec, h1, h2, fmt2]
      · refine ⟨rnd2 (b * 100) KB, ?_, pad2_length _⟩
        simp [convert_binary_units, unitSuffixSpec, h1, h2, hb, fmt2]
  · intro b
    unfold unitSuffixSpec
    by_cases h1 : GB ≤ b
    · rw [if_pos h1]
      exact iff_of_true rfl h1
    · rw [if_neg h1]
      by_cases h2 : MB ≤ b
      · rw [if_pos h2]
        exact iff_of_false (by decide) h1
      · rw [if_neg h2]
        by_cases h3 : KB ≤ b
        · rw [if_pos h3]
          exact iff_of_false (by decide) h1
        · rw [if_neg h3]
          exact iff_of_false (by decide) h1
  · intro b
    unfold unitSuffixSpec
    by_cases h1 : GB ≤ b
    · rw [if_pos h1]
      exact iff_of_false (by decide) (by omega)
    · rw [if_neg h1]
      by_cases h2 : MB ≤ b
      · rw [if_pos h2]
        exact iff_of_true rfl ⟨h2, by omega⟩
      · rw [if_neg h2]
        by_cases h3 : KB ≤ b
        · rw [if_pos h3]
          exact iff_of_false (by decide) (by omega)
        · rw [if_neg h3]
          exact iff_of_false (by decide) (by omega)
  · intro b
    unfold unitSuffixSpec
    by_cases h1 : GB ≤ b
    · rw [if_pos h1]
      exact iff_of_false (by decide) (by omega)
    · rw [if_neg h1]
      by_cases h2 : MB ≤ b
      · rw [if_pos h2]
        exact iff_of_false (by decide) (by omega)
      · rw [if_neg h2]
        by_cases h3 : KB ≤ b
        · rw [if_pos h3]
          exact iff_of_true rfl ⟨h3, by omega⟩
        · rw [if_neg h3]
          exact iff_of_false (by decide) (by omega)
  · intro b
    unfold unitSuffixSpec
    by_cases h1 : GB ≤ b
    · rw [if_pos h1]
      exact iff_of_false (by decide) (by omega)
    · rw [if_neg h1]
      by_cases h2 : MB ≤ b
      · rw [if_pos h2]
        exact iff_of_false (by decide) (by omega)
      · rw [if_neg h2]
        by_cases h3 : KB ≤ b
        · rw [if_pos h3]
          exact iff_of_false (by decide) (by omega)
        · rw [if_neg h3]
          exact iff_of_true rfl (by omega)

/-- C2 witness: the scaled-tier clause applied at 1536 bytes. -/
theorem c2_witness :
    KB ≤ 1536
    ∧ ∃ q : Nat, convert_binary_units 1536 =
        toString (q / 100) ++ "." ++ pad2 (q % 100) ++ unitSuffixSpec 1536
      ∧ (pad2 (q % 100)).length = 2 :=
  ⟨by decide, c2_convert_binary_units_tiers.2.1 1536 (by decide)⟩

/-- C4: for a recorded directory child the size field is `"0B"` when the
empty-directory check succeeds with `true`, the formatted aggregate size
when it succeeds with `false`, and the fallback `"0B"` when the check
fails — the record still exists, so the listing continues; for a file child
the size field is the formatted file length. -/
theorem c4_size_field_policy :
    ∀ (fs : FSys) (fuel : Nat) (nm : Option String) (cid : Nat) (meta : StatMeta),
      statFollow fs cid = some meta →
      ∃ fm, entryRecord fs fuel (EntryRes.ok nm cid) = some fm
        ∧ (meta.isDir = true → is_dir_empty fs cid = some true → fm.size = "0B")
        ∧ (meta.isDir = true → is_dir_empty fs cid = some false →
            fm.size = convert_binary_units (dir_size fs fuel cid))
        ∧ (meta.isDir = true → is_dir_empty fs cid = none → fm.size = "0B")
        ∧ (meta.isDir = false → fm.size = convert_binary_units meta.len) := by
  intro fs fuel nm cid meta hstat
  refine ⟨{ name := nm.getD "???"
            ftype := if meta.isDir then FileType.Directory else FileType.File
            size :=
              if meta.isDir then
                match is_dir_empty fs cid with
                | some true => "0B"
                | some false => convert_binary_units (dir_size fs fuel cid)
                | none => "0B"
              else convert_binary_units meta.len
            modified :=
              match meta.modified with
              | some t => formatDate t
              | none => "" }, ?_, ?_, ?_, ?_, ?_⟩
  · simp only [entryRecord, hstat]
  · intro hd he
    simp [hd, he]
  · intro hd he
    simp [hd, he]
  · intro hd he
    simp [hd, he]
  · intro hd
    simp [hd]

/-- C4 witness: the theorem applied to the `sub` child of `exC1`, a
non-empty directory whose aggregate size is 300 bytes. -/
theorem c4_witness :
    ∃ fm, entryRecord exC1 1 (EntryRes.ok (some "sub") 2) = some fm
      ∧ ((⟨true, 0, none⟩ : StatMeta).isDir = true → is_dir_empty exC1 2 = some true →
          fm.size = "0B")
      ∧ ((⟨true, 0, none⟩ : StatMeta).isDir = true → is_dir_empty exC1 2 = some false →
          fm.size = convert_binary_units (dir_size exC1 1 2))
      ∧ ((⟨true, 0, none⟩ : StatMeta).isDir = true → is_dir_empty exC1 2 = none →
          fm.size = "0B")
      ∧ ((⟨true, 0, none⟩ : StatMeta).isDir = false →
          fm.size = convert_binary_units (⟨true, 0, none⟩ : StatMeta).len) :=
  c4_size_field_policy exC1 1 (some "sub") 2 ⟨true, 0, none⟩ (by decide)

/-- C5: the collector never aborts on a per-entry failure — an `Err`
enumeration item and an entry whose followed metadata read fails are
omitted; a name that is not valid text is recorded as `"???"`; a missing
modification timestamp is recorded as the empty string; and the output is
exactly the per-entry records of the enumerated list, so the other entries
are still collected. -/
theorem c5_per_entry_fallbacks :
    (∀ (fs : FSys) (fuel : Nat), entryRecord fs fuel EntryRes.err = none)
    ∧ (∀ (fs : FSys) (fuel : Nat) (nm : Option String) (cid : Nat),
        statFollow fs cid = none → entryRecord fs fuel (EntryRes.ok nm cid) = none)
    ∧ (∀ (fs : FSys) (fuel cid : Nat) (fm : FileMetadata),
        entryRecord fs fuel (EntryRes.ok none cid) = some fm → fm.name = "???")
    ∧ (∀ (fs : FSys) (fuel : Nat) (nm : Option String) (cid : Nat) (meta : StatMeta)
        (fm : FileMetadata), statFollow fs cid = some meta → meta.modified = none →
        entryRecord fs fuel (EntryRes.ok nm cid) = some fm → fm.modified = "")
    ∧ (∀ (fs : FSys) (fuel id : Nat) (ents : List EntryRes),
        readDir fs id = some ents →
        fetchfiles fs fuel id = ents.filterMap (entryRecord fs fuel)) := by
  refine ⟨?_, ?_, ?_, ?_, ?_⟩
  · intro fs fuel
    rfl
  · intro fs fuel nm cid h
    simp [entryRecord, h]
  · intro fs fuel cid fm h
    simp only [entryRecord] at h
    cases hs : statFollow fs cid with
    | none => rw [hs] at h; cases h
    | some meta =>
      rw [hs] at h
      injection h with h2
      subst h2
      rfl
  · intro fs fuel nm cid meta fm hs hmod h
    simp only [entryRecord, hs] at h
    injection h with h2
    subst h2
    simp [hmod]
  · intro fs fuel id ents h
    simp [fetchfiles, h]

/-- C5 witness: in `fsC5` the vanished entry `9` is omitted, the
invalid-name entry `1` is recorded as `"???"`, and the entry `2` with no
readable timestamp is recorded with an empty modified field. -/
theorem c5_witness :
    entryRecord fsC5 0 (EntryRes.ok (some "gone") 9) = none
    ∧ ({ name := "???", ftype := FileType.File, size := "5B",
         modified := "Mon  3 Jun 24" } : FileMetadata).name = "???"
    ∧ ({ name := "x.txt", ftype := FileType.File, size := "10B",
         modified := "" } : FileMetadata).modified = "" :=
  ⟨c5_per_entry_fallbacks.2.1 fsC5 0 (some "gone") 9 (by decide),
   c5_per_entry_fallbacks.2.2.1 fsC5 0 1
     { name := "???", ftype := FileType.File, size := "5B",
       modified := "Mon  3 Jun 24" } (by decide),
   c5_per_entry_fallbacks.2.2.2.1 fsC5 0 (some "x.txt") 2 ⟨false, 10, none⟩
     { name := "x.txt", ftype := FileType.File, size := "10B", modified := "" }
     (by decide) rfl (by decide)⟩

/-- C6: `is_dir_empty` succeeds with `true` exactly when the directory
enumerates to zero entries, succeeds with `false` whenever at least one
entry of any kind is present (a directory holding only one empty
subdirectory yields `false`), and propagates the I/O error — it does not
return a success — whenever the path cannot be read. -/
theorem c6_is_dir_empty_check :
    (∀ (fs : FSys) (id : Nat), is_dir_empty fs id = some true ↔ readDir fs id = some [])
    ∧ (∀ (fs : FSys) (id : Nat) (ents : List EntryRes),
        readDir fs id = some ents → ents ≠ [] → is_dir_empty fs id = some false)
    ∧ (∀ (fs : FSys) (id : Nat), readDir fs id = none → is_dir_empty fs id = none)
    ∧ is_dir_empty exC6 0 = some false
    ∧ readDir exC6 1 = some [] := by
  refine ⟨?_, ?_, ?_, by decide, by decide⟩
  · intro fs id
    unfold is_dir_empty
    cases h : readDir fs id with
    | none => simp [h]
    | some ents => simp [h, List.isEmpty_iff]
  · intro fs id ents h hne
    cases ents with
    | nil => exact absurd rfl hne
    | cons a t => simp [is_dir_empty, h]
  · intro fs id h
    simp [is_dir_empty, h]

/-- C6 witness: the at-least-one-entry clause applied to `exC6`, whose root
holds exactly one (empty) subdirectory. -/
theorem c6_witness : is_dir_empty exC6 0 = some false :=
  c6_is_dir_empty_check.2.1 exC6 0 [EntryRes.ok (some "emptysub") 1]
    (by decide) (by decide)

/-- C7: `main`'s dispatch is exhaustive — a failing existence check prints
the error message and produces no listing, a successful check reporting a
missing path prints the missing-path message and produces no listing, an
existing path with an empty record sequence prints the empty-folder
message, and otherwise the records are rendered as JSON or as a table. -/
theorem c7_main_dispatch :
    ∀ (fs : FSys) (fuel id : Nat) (j : Bool),
      mainRun fs fuel none id j = ProgOut.errorReading
      ∧ mainRun fs fuel (some false) id j = ProgOut.pathMissing
      ∧ (fetchfiles fs fuel id = [] →
          mainRun fs fuel (some true) id j = ProgOut.folderEmpty)
      ∧ (fetchfiles fs fuel id ≠ [] →
          mainRun fs fuel (some true) id j =
            if j then ProgOut.jsonOut (fetchfiles fs fuel id)
            else ProgOut.tableOut (fetchfiles fs fuel id)) := by
  intro fs fuel id j
  refine ⟨rfl, rfl, ?_, ?_⟩
  · intro h
    simp [mainRun, h]
  · intro h
    cases hf : fetchfiles fs fuel id with
    | nil => exact absurd hf h
    | cons a t => cases j <;> simp [mainRun, hf]

/-- C7 witness: the empty case on the empty directory of `exC6` and the
rendering case on `exC1` with JSON selected. -/
theorem c7_witness :
    mainRun exC6 1 (some true) 1 false = ProgOut.folderEmpty
    ∧ mainRun exC1 3 (some true) 0 true =
        (if true then ProgOut.jsonOut (fetchfiles exC1 3 0)
         else ProgOut.tableOut (fetchfiles exC1 3 0)) :=
  ⟨(c7_main_dispatch exC6 1 1 false).2.2.1 (by decide),
   (c7_main_dispatch exC1 3 0 true).2.2.2 (by decide)⟩

/-- C8: the collector is deterministic given fixed filesystem responses —
two invocations on the same path yield identical record sequences — so
when JSON output is selected, the serialized records (from the second
`fetchfiles` call) are exactly the records that were built into the
discarded table from the first call. -/
theorem c8_deterministic_json :
    (∀ (fs : FSys) (fuel id : Nat), fetchfiles fs fuel id = fetchfiles fs fuel id)
    ∧ (∀ (fs : FSys) (fuel id : Nat) (files : List FileMetadata),
        fetchfiles fs fuel id = files → files ≠ [] →
        mainRun fs fuel (some true) id true = ProgOut.jsonOut files) := by
  constructor
  · intro fs fuel id
    rfl
  · intro fs fuel id files h hne
    subst h
    cases hf : fetchfiles fs fuel id with
    | nil => exact absurd hf hne
    | cons a t => simp [mainRun, hf]

/-- C8 witness: on `exC1` with JSON selected, the rendered records are the
first call's records. -/
theorem c8_witness :
    mainRun exC1 3 (some true) 0 true = ProgOut.jsonOut (fetchfiles exC1 3 0) :=
  c8_deterministic_json.2 exC1 3 0 (fetchfiles exC1 3 0) rfl (by decide)

/-- C9: the collector stats its children with symlink-following metadata —
a direct child that is a symlink to a directory is classified as a
`Directory` and sized through the directory branch on the child's own path
(whose enumeration enters the link target), while a direct child that is a
symlink to a dangling target is omitted because the followed stat fails. -/
theorem c9_collector_follows_symlinks :
    (∀ (fs : FSys) (fuel : Nat) (nm : Option String) (cid l tid : Nat)
      (md : Option Nat) (tents : Option (List EntryRes)) (tmd : Option Nat),
      fs.node cid = some (NodeData.symlink l tid md) →
      fs.node tid = some (NodeData.dir tents tmd) →
      statFollow fs cid = some ⟨true, 0, tmd⟩
      ∧ (∃ fm, entryRecord fs fuel (EntryRes.ok nm cid) = some fm
          ∧ fm.ftype = FileType.Directory
          ∧ fm.size = (match is_dir_empty fs cid with
              | some true => "0B"
              | some false => convert_binary_units (dir_size fs fuel cid)
              | none => "0B"))
      ∧ readDir fs cid = tents)
    ∧ (∀ (fs : FSys) (fuel : Nat) (nm : Option String) (cid l tid : Nat)
        (md : Option Nat),
        fs.node cid = some (NodeData.symlink l tid md) →
        fs.node tid = none →
        entryRecord fs fuel (EntryRes.ok nm cid) = none) := by
  constructor
  · intro fs fuel nm cid l tid md tents tmd h1 h2
    have hres : resolve fs maxLinkDepth cid = some tid := by
      rw [show maxLinkDepth = 39 + 1 from rfl,
        resolve_symlink_step fs 39 cid l tid md h1,
        show (39 : Nat) = 38 + 1 from rfl,
        resolve_dir_stop fs 38 tid tents tmd h2]
    have hstat : statFollow fs cid = some ⟨true, 0, tmd⟩ := by
      simp [statFollow, hres, statNoFollow, h2]
    refine ⟨hstat, ⟨?_, ?_⟩⟩
    · refine ⟨{ name := nm.getD "???"
                ftype := FileType.Directory
                size :=
                  match is_dir_empty fs cid with
                  | some true => "0B"
                  | some false => convert_binary_units (dir_size fs fuel cid)
                  | none => "0B"
                modified :=
                  match tmd with
                  | some t => formatDate t
                  | none => "" }, ?_, rfl, rfl⟩
      simp [entryRecord, hstat]
      cases tmd <;> rfl
    · simp [readDir, hres, h2]
  · intro fs fuel nm cid l tid md h1 h2
    have hres : resolve fs maxLinkDepth cid = none := by
      rw [show maxLinkDepth = 39 + 1 from rfl,
        resolve_symlink_step fs 39 cid l tid md h1,
        show (39 : Nat) = 38 + 1 from rfl]
      simp [resolve, h2]
    simp [entryRecord, statFollow, hres]

/-- C9 witness: in `fsC9` the symlink child `1` to directory `2` is
recorded as a directory sized through the link target, and the symlink
child `4` with a dangling target is omitted. -/
theorem c9_witness :
    (statFollow fsC9 1 = some ⟨true, 0, some 1717400000⟩
      ∧ (∃ fm, entryRecord fsC9 2 (EntryRes.ok (some "link") 1) = some fm
          ∧ fm.ftype = FileType.Directory
          ∧ fm.size = (match is_dir_empty fsC9 1 with
              | some true => "0B"
              | some false => convert_binary_units (dir_size fsC9 2 1)
              | none => "0B"))
      ∧ readDir fsC9 1 = some [EntryRes.ok (some "f.bin") 3])
    ∧ entryRecord fsC9 2 (EntryRes.ok (some "dead") 4) = none :=
  ⟨c9_collector_follows_symlinks.1 fsC9 2 (some "link") 1 9 2 none
     (some [EntryRes.ok (some "f.bin") 3]) (some 1717400000) rfl rfl,
   c9_collector_follows_symlinks.2 fsC9 2 (some "dead") 4 5 7 none rfl rfl⟩

/-- C10: when the target exists but enumerating it fails (it is a regular
file, or reading is denied), `fetchfiles` returns the empty sequence rather
than an error, and `main` prints the same empty-folder message as for a
genuinely empty directory. -/
theorem c10_unreadable_target_reports_empty :
    ∀ (fs : FSys) (fuel id : Nat) (j : Bool), readDir fs id = none →
      fetchfiles fs fuel id = []
      ∧ mainRun fs fuel (some true) id j = ProgOut.folderEmpty := by
  intro fs fuel id j h
  constructor
  · simp [fetchfiles, h]
  · simp [mainRun, fetchfiles, h]

/-- C10 witness: the theorem applied to `fsC10`, whose id 0 is a regular
file. -/
theorem c10_witness :
    fetchfiles fsC10 0 0 = []
    ∧ mainRun fsC10 0 (some true) 0 false = ProgOut.folderEmpty :=
  c10_unreadable_target_reports_empty fsC10 0 0 false (by decide)
